import Mathlib

/-!
Verification of the script-runner harness (the injected sandbox prelude):
the continuation-handoff protocol, the external-event delivery entry point
`__doCallback`, the log capture buffers, and the async exec bridge.

The JavaScript source is embedded shallowly:
* JS values are `JSVal`; a thrown JS value is reduced to its observable
  `message` property (`JSError`, with `none` when the thrown value has no
  message property, e.g. a thrown string or number; `null` and `undefined`
  are both collapsed to `none`).
* The mutable globals `__internalLogs` and `__internalError` form the
  explicit state `HarnessState`; the initial lines
  `const __internalLogs = []; let __internalError = null;` give `initState`.
* Calls to the host capability `__continuation.resume()` and invocations of
  the registered callback are recorded as an event trace (`Event`), so that
  "exactly once, as the final action" is a statement about the trace.
* `async`/`await` is modelled by the single-threaded cooperative semantics
  the engine guarantees: an awaited script-side computation runs to its
  completion (normal or raising) before the continuation of the awaiting
  function, so script bodies and handlers are state transformers returning
  `Except JSError Unit`.
* `JSON.parse` and `Date.now()` are host builtins, passed in as parameters
  (`parse`, `now`).
-/

/-- A JavaScript value (enough structure for the harness surface). -/
inductive JSVal : Type where
  | null : JSVal
  | undefined : JSVal
  | bool : Bool → JSVal
  | num : Int → JSVal
  | str : String → JSVal
  | obj : List (String × JSVal) → JSVal

/-- The observable content of a thrown JS value: its `message` property,
`none` when the thrown value has no such property (thrown string, number,
`null`, ...). -/
structure JSError : Type where
  message : Option String
deriving DecidableEq

/-- One entry of `__internalLogs`: `{ time, message }`. -/
structure LogEntry : Type where
  time : Nat
  message : String
deriving DecidableEq

/-- The mutable globals of the harness:
`const __internalLogs = []` and `let __internalError = null`. -/
structure HarnessState : Type where
  internalLogs : List LogEntry
  internalError : Option String
deriving DecidableEq

/-- The initial state built by the first two lines of the prelude. -/
def initState : HarnessState := ⟨[], none⟩

/-- Observable events of a run: an invocation of the registered callback
with a (parsed) argument, and a call of the host capability
`__continuation.resume()`. -/
inductive Event : Type where
  | handlerCall : JSVal → Event
  | resume : Event

/-- Number of `__continuation.resume()` calls in a trace. -/
def countResume : List Event → Nat
  | [] => 0
  | Event.resume :: es => countResume es + 1
  | _ :: es => countResume es

/-- A script-side computation (a script body, the jasmine run, or a
registered handler body): it mutates the harness globals and either
completes normally or raises a JS value. -/
def ScriptComp : Type := HarnessState → HarnessState × Except JSError Unit

/-- A registered callback: invoked with the parsed payload. -/
def Handler : Type := JSVal → ScriptComp

/-- `let __callback = function() {}` — the initial no-op handler. -/
def initialCallback : Handler := fun _ st => (st, Except.ok ())

/-- `function registerCallback(callback) { __callback = callback; }` —
assignment to the single slot: the new slot value, given the old. -/
def registerCallback (_slot : Handler) (callback : Handler) : Handler :=
  callback

/-- Result of a harness entry point: final globals, event trace, and the
outcome its own (async-function) promise settles with. -/
structure CallResult : Type where
  state : HarnessState
  events : List Event
  outcome : Except JSError Unit

/-- `async function __doCallback(resString)`.
`JSON.parse(resString)` runs before the `try`: a parse failure propagates
out of `__doCallback` with no handler call and no `finally` block, hence no
`__continuation.resume()`.  On a successful parse, `await __callback(res)`
runs the current handler to completion and the `finally` block then calls
`__continuation.resume()`; a handler failure re-propagates after the
`finally` block has run. -/
def doCallback (parse : String → Except JSError JSVal) (slot : Handler)
    (st : HarnessState) (resString : String) : CallResult :=
  match parse resString with
  | Except.error e => ⟨st, [], Except.error e⟩
  | Except.ok res =>
      let r := slot res st
      ⟨r.1, [Event.handlerCall res, Event.resume], r.2⟩

/-- `function log(...messages)`: appends
`{ time: Date.now(), message: messages?.join(' ') }` to `__internalLogs`.
`Date.now()` is the host clock, passed as `now`. -/
def log (now : Nat) (messages : List String) (logs : List LogEntry) :
    List LogEntry :=
  logs ++ [⟨now, String.intercalate " " messages⟩]

/-- A whole sequence of `log` calls, each with its own clock reading. -/
def runLogCalls (calls : List (Nat × List String)) (logs : List LogEntry) :
    List LogEntry :=
  match calls with
  | [] => logs
  | c :: cs => runLogCalls cs (log c.1 c.2 logs)

/-- JSON string quoting as used by `JSON.stringify` on the log messages
(quotation marks, backslashes and newlines escaped). -/
def jsonQuote (s : String) : String :=
  "\"" ++ String.join (s.toList.map (fun c =>
    if c = '"' then "\\\""
    else if c = '\\' then "\\\\"
    else if c = '\n' then "\\n"
    else String.singleton c)) ++ "\""

/-- `JSON.stringify` of one log entry. -/
def stringifyEntry (e : LogEntry) : String :=
  "\x7b\"time\":" ++ toString e.time ++ ",\"message\":"
    ++ jsonQuote e.message ++ "\x7d"

/-- `function __getInternalLogs() { return JSON.stringify(__internalLogs); }`
— the pure serialization of the log buffer. -/
def getInternalLogs (logs : List LogEntry) : String :=
  "[" ++ String.intercalate "," (logs.map stringifyEntry) ++ "]"

/-- `__getInternalLogs` viewed as an operation on the harness globals: it
reads `__internalLogs` and mutates nothing. -/
def getInternalLogsOp (st : HarnessState) : HarnessState × String :=
  (st, getInternalLogs st.internalLogs)

/-- JS truthiness, as tested by `if (error)` in the exec bridge. -/
def truthy : JSVal → Bool
  | JSVal.null => false
  | JSVal.undefined => false
  | JSVal.bool b => b
  | JSVal.num n => n ≠ 0
  | JSVal.str s => s ≠ ""
  | JSVal.obj _ => true

/-- How the promise returned by `exec` settles. -/
inductive Settled : Type where
  | resolved : JSVal → Settled
  | rejected : JSVal → Settled

/-- The completion callback `exec` registers via `.onComplete`:
`(result, error) => { if (error) { reject(error); } else { resolve(result); } }`. -/
def onCompleteCallback (result error : JSVal) : Settled :=
  if truthy error then Settled.rejected error else Settled.resolved result

/-- `async function exec(requestId, envName)`: obtains a fresh
`PendingExecHandle` from `__exec.exec(requestId, envName)`; the host fires
its single completion event `(result, error)` — modelled by the function
`hostCompletion` from the call arguments to that pair — and the returned
promise settles through `onCompleteCallback`. -/
def exec (requestId : Nat) (envName : String)
    (hostCompletion : Nat → String → JSVal × JSVal) : Settled :=
  let c := hostCompletion requestId envName
  onCompleteCallback c.1 c.2

/-- The run-driver IIFE:
```
try { SCRIPT; await jasmine.getEnv().execute(); }
catch (e) { __internalError = e.message; }
finally { __continuation.resume(); }
```
The catch block stores only `e.message`; the `finally` block always calls
`__continuation.resume()`; the IIFE itself never propagates a failure. -/
def runDriver (scriptBody jasmineExecute : ScriptComp)
    (st : HarnessState) : CallResult :=
  let r1 := scriptBody st
  match r1.2 with
  | Except.error e =>
      ⟨{ r1.1 with internalError := e.message }, [Event.resume], Except.ok ()⟩
  | Except.ok _ =>
      let r2 := jasmineExecute r1.1
      match r2.2 with
      | Except.error e =>
          ⟨{ r2.1 with internalError := e.message }, [Event.resume],
            Except.ok ()⟩
      | Except.ok _ => ⟨r2.1, [Event.resume], Except.ok ()⟩

/-- `console = null;` — the global console binding for the whole run. -/
def consoleBinding : JSVal := JSVal.null

/-- The TypeError raised by a property read on `null`. -/
def nullReadError (prop : String) : JSError :=
  ⟨some ("TypeError: Cannot read properties of null (reading " ++ prop ++ ")")⟩

/-- JS member access `v.prop`: raises a TypeError on `null`/`undefined`,
looks the property up on an object, yields `undefined` otherwise. -/
def getMember (v : JSVal) (prop : String) : Except JSError JSVal :=
  match v with
  | JSVal.null => Except.error (nullReadError prop)
  | JSVal.undefined =>
      Except.error
        ⟨some ("TypeError: Cannot read properties of undefined (reading "
          ++ prop ++ ")")⟩
  | JSVal.obj fields =>
      Except.ok (match fields.lookup prop with
        | some w => w
        | none => JSVal.undefined)
  | _ => Except.ok JSVal.undefined

/-- A script body whose only statement is `console.log(parts...)`: it must
first read the `log` member of the global `console` binding; with
`console = null` that read raises before any output could be produced, so
the state is untouched and the TypeError propagates. -/
def scriptConsoleLog (_parts : List String) : ScriptComp :=
  fun st =>
    match getMember consoleBinding "log" with
    | Except.error e => (st, Except.error e)
    | Except.ok _f => (st, Except.ok ())

/-- A script body that performs a sequence of `log` calls and then throws
`e` synchronously. -/
def logsThenThrow (calls : List (Nat × List String)) (e : JSError) :
    ScriptComp :=
  fun st =>
    ({ st with internalLogs := runLogCalls calls st.internalLogs },
      Except.error e)

/-- A script body that performs a sequence of `log` calls and completes
normally. -/
def logsOnly (calls : List (Nat × List String)) : ScriptComp :=
  fun st =>
    ({ st with internalLogs := runLogCalls calls st.internalLogs },
      Except.ok ())

/-- A jasmine run that completes normally with no effect. -/
def jasmineOk : ScriptComp := fun st => (st, Except.ok ())

/-! ## Helper lemmas -/

theorem runLogCalls_append (calls : List (Nat × List String))
    (logs : List LogEntry) :
    runLogCalls calls logs
      = logs ++ calls.map (fun c =>
          (⟨c.1, String.intercalate " " c.2⟩ : LogEntry)) := by
  induction calls generalizing logs with
  | nil => simp [runLogCalls]
  | cons c cs ih =>
      rw [runLogCalls, ih, log]
      simp

/-! ## Claim theorems -/

/-- C1: for every script body, whether it and the awaited jasmine run
complete normally or raise, the run driver calls
`__continuation.resume()` exactly once as the terminal action of the run,
no exception escapes the driver (its outcome is always `ok`), and any
failure of either step is captured into `__internalError` as the thrown
value's message. -/
theorem runDriver_guaranteed_single_handoff
    (scriptBody jasmineExecute : ScriptComp) (st : HarnessState) :
    (runDriver scriptBody jasmineExecute st).events = [Event.resume] ∧
    countResume (runDriver scriptBody jasmineExecute st).events = 1 ∧
    (runDriver scriptBody jasmineExecute st).outcome = Except.ok () ∧
    (∀ e, (scriptBody st).2 = Except.error e →
      (runDriver scriptBody jasmineExecute st).state.internalError
        = e.message) ∧
    (∀ e, (scriptBody st).2 = Except.ok () →
      (jasmineExecute (scriptBody st).1).2 = Except.error e →
      (runDriver scriptBody jasmineExecute st).state.internalError
        = e.message) := by
  unfold runDriver
  rcases h1 : (scriptBody st).2 with e1 | u1
  · simp [h1, countResume]
  · rcases h2 : (jasmineExecute (scriptBody st).1).2 with e2 | u2 <;>
      simp [h1, h2, countResume]

/-- C1 witness: a concrete throwing script body has its message captured. -/
theorem runDriver_guaranteed_single_handoff_witness :
    (runDriver (logsThenThrow [] ⟨some "boom"⟩) jasmineOk
        initState).state.internalError = some "boom" :=
  (runDriver_guaranteed_single_handoff (logsThenThrow [] ⟨some "boom"⟩)
    jasmineOk initState).2.2.2.1 ⟨some "boom"⟩ rfl

/-- C2: for every payload that parses successfully, `__doCallback` invokes
the currently registered handler with the parsed value, takes that
handler's full completion as its own state and outcome, and performs
exactly one `__continuation.resume()` as its final action, whether the
handler completes normally or raises. -/
theorem doCallback_parsed_payload_single_final_resume
    (parse : String → Except JSError JSVal) (slot : Handler)
    (st : HarnessState) (payload : String) (v : JSVal)
    (h : parse payload = Except.ok v) :
    (doCallback parse slot st payload).events
      = [Event.handlerCall v, Event.resume] ∧
    countResume (doCallback parse slot st payload).events = 1 ∧
    (doCallback parse slot st payload).state = (slot v st).1 ∧
    (doCallback parse slot st payload).outcome = (slot v st).2 := by
  simp [doCallback, h, countResume]

/-- A concrete host parse that always succeeds with the number 42. -/
def parseOkNum : String → Except JSError JSVal :=
  fun _ => Except.ok (JSVal.num 42)

/-- C2 witness: concrete successful delivery. -/
theorem doCallback_parsed_payload_single_final_resume_witness :
    (doCallback parseOkNum initialCallback initState "42").events
      = [Event.handlerCall (JSVal.num 42), Event.resume] :=
  (doCallback_parsed_payload_single_final_resume parseOkNum
    initialCallback initState "42" (JSVal.num 42) rfl).1

/-- A concrete host parse that always fails, as `JSON.parse` does on a
malformed document. -/
def parseAlwaysFail : String → Except JSError JSVal :=
  fun _ => Except.error ⟨some "SyntaxError: Unexpected token"⟩

/-- C3 counterexample: on a payload that fails to parse, `__doCallback`
performs zero continuation handoffs, not one: `JSON.parse` runs before the
try/finally, so the failure propagates without ever reaching the `finally`
block. -/
theorem doCallback_malformed_payload_cex :
    countResume (doCallback parseAlwaysFail initialCallback initState
      "nonsense").events = 0 ∧
    (doCallback parseAlwaysFail initialCallback initState
      "nonsense").outcome
      = Except.error ⟨some "SyntaxError: Unexpected token"⟩ :=
  ⟨rfl, rfl⟩

/-- C3 amended: for every payload that fails to parse, `__doCallback`
never invokes the registered handler, propagates the parse failure, and
performs NO continuation handoff (the state is untouched and the event
trace is empty). -/
theorem doCallback_malformed_payload_propagates_without_handoff
    (parse : String → Except JSError JSVal) (slot : Handler)
    (st : HarnessState) (payload : String) (e : JSError)
    (h : parse payload = Except.error e) :
    doCallback parse slot st payload = ⟨st, [], Except.error e⟩ := by
  simp [doCallback, h]

/-- C3 amended witness: concrete malformed delivery. -/
theorem doCallback_malformed_payload_propagates_without_handoff_witness :
    doCallback parseAlwaysFail initialCallback initState "nonsense"
      = ⟨initState, [], Except.error ⟨some "SyntaxError: Unexpected token"⟩⟩ :=
  doCallback_malformed_payload_propagates_without_handoff parseAlwaysFail
    initialCallback initState "nonsense"
    ⟨some "SyntaxError: Unexpected token"⟩ rfl

/-- C4: for every finite sequence of `log` calls, the log buffer holds one
entry per call in exact call order, each message the call's arguments
joined with a single space; `__getInternalLogs` serializes exactly those
entries in that order and, as an operation on the globals, mutates
nothing, so it may be called any number of times. -/
theorem log_order_join_and_serialize_pure
    (calls : List (Nat × List String)) :
    runLogCalls calls []
      = calls.map (fun c =>
          (⟨c.1, String.intercalate " " c.2⟩ : LogEntry)) ∧
    getInternalLogs (runLogCalls calls [])
      = "[" ++ String.intercalate ","
          ((calls.map (fun c =>
            (⟨c.1, String.intercalate " " c.2⟩ : LogEntry))).map
              stringifyEntry) ++ "]" ∧
    (∀ st : HarnessState,
      getInternalLogsOp st = (st, getInternalLogs st.internalLogs)) := by
  refine ⟨?_, ?_, fun _ => rfl⟩
  · simpa using runLogCalls_append calls []
  · rw [getInternalLogs, runLogCalls_append]
    simp

/-- C5: for every script body that performs a sequence of `log` calls and
then throws synchronously, after the run's final handoff `__internalError`
holds the thrown value's message and `__internalLogs` still contains every
entry logged before the throw, unchanged and in order. -/
theorem script_throw_preserves_logs_and_captures_message
    (calls : List (Nat × List String)) (e : JSError)
    (jasmineExecute : ScriptComp) (st : HarnessState) :
    (runDriver (logsThenThrow calls e) jasmineExecute st).state.internalLogs
      = st.internalLogs ++ calls.map (fun c =>
          (⟨c.1, String.intercalate " " c.2⟩ : LogEntry)) ∧
    (runDriver (logsThenThrow calls e) jasmineExecute st).state.internalError
      = e.message ∧
    (runDriver (logsThenThrow calls e) jasmineExecute st).events
      = [Event.resume] := by
  refine ⟨?_, rfl, rfl⟩
  simp [runDriver, logsThenThrow, runLogCalls_append]

/-- C6: registering `h1` and then `h2` leaves the slot holding exactly
`h2` — last-write-wins, at most one handler held — and every subsequent
delivery behaves exactly as if only `h2` had ever been registered, for
every `h1`: the first handler is never consulted. -/
theorem registerCallback_last_write_wins
    (h1 h2 : Handler) (parse : String → Except JSError JSVal)
    (st : HarnessState) (payload : String) :
    registerCallback (registerCallback initialCallback h1) h2 = h2 ∧
    doCallback parse (registerCallback (registerCallback initialCallback h1) h2)
        st payload
      = doCallback parse h2 st payload :=
  ⟨rfl, rfl⟩

/-- C7: per exec-bridge invocation, when the host completion fires with a
truthy failure the returned promise rejects with that failure exactly as
delivered, and when it fires with no failure the promise resolves with the
delivered result. -/
theorem exec_failure_rejects_as_delivered
    (requestId : Nat) (envName : String)
    (hostCompletion : Nat → String → JSVal × JSVal) :
    (truthy (hostCompletion requestId envName).2 = true →
      exec requestId envName hostCompletion
        = Settled.rejected (hostCompletion requestId envName).2) ∧
    (truthy (hostCompletion requestId envName).2 = false →
      exec requestId envName hostCompletion
        = Settled.resolved (hostCompletion requestId envName).1) := by
  constructor <;> intro h <;> simp [exec, onCompleteCallback, h]

/-- A concrete host completion reporting a failure. -/
def hostCompletionFail : Nat → String → JSVal × JSVal :=
  fun _ _ => (JSVal.null, JSVal.str "request failed")

/-- C7 witness: a concrete failing completion rejects with the failure. -/
theorem exec_failure_rejects_as_delivered_witness :
    exec 1 "env1" hostCompletionFail
      = Settled.rejected (JSVal.str "request failed") :=
  (exec_failure_rejects_as_delivered 1 "env1" hostCompletionFail).1
    (by decide)

/-- C8 counterexample: with `console = null`, a script body whose only
statement is a console call raises a TypeError instead of having no
effect: after the run, ErrorSlot is set (to the TypeError message), which
the stated claim — console use does not raise — forbids. -/
theorem console_use_raises_cex :
    (scriptConsoleLog ["hi"] initState).2
      = Except.error (nullReadError "log") ∧
    (runDriver (scriptConsoleLog ["hi"]) jasmineOk
        initState).state.internalError
      = some "TypeError: Cannot read properties of null (reading log)" :=
  ⟨rfl, rfl⟩

/-- C8 amended: standard output is bound to `null` for the run, so a
script attempt to use the console stream produces no observable output and
no log entries, but it raises a TypeError, which the run driver captures
into ErrorSlot like any other script failure; the run still terminates
with the single final handoff. -/
theorem console_disabled_use_raises_captured
    (parts : List String) (jasmineExecute : ScriptComp)
    (st : HarnessState) :
    consoleBinding = JSVal.null ∧
    scriptConsoleLog parts st = (st, Except.error (nullReadError "log")) ∧
    runDriver (scriptConsoleLog parts) jasmineExecute st
      = ⟨{ st with internalError := (nullReadError "log").message },
          [Event.resume], Except.ok ()⟩ :=
  ⟨rfl, rfl, rfl⟩

/-- C9: the exec-bridge completion callback decides between rejection and
resolution solely by the truthiness of its failure argument: for every
falsy failure value — `null`, `undefined`, `0`, the empty string —
delivered together with any result, the promise resolves with the result
rather than rejecting. -/
theorem onCompleteCallback_falsy_failure_resolves
    (result failure : JSVal) (h : truthy failure = false) :
    onCompleteCallback result failure = Settled.resolved result ∧
    truthy JSVal.null = false ∧
    truthy JSVal.undefined = false ∧
    truthy (JSVal.num 0) = false ∧
    truthy (JSVal.str "") = false :=
  ⟨by simp [onCompleteCallback, h], by decide, by decide, by decide,
    by decide⟩

/-- C9 witness: a null failure with an object result resolves. -/
theorem onCompleteCallback_falsy_failure_resolves_witness :
    onCompleteCallback (JSVal.obj []) JSVal.null
      = Settled.resolved (JSVal.obj []) :=
  (onCompleteCallback_falsy_failure_resolves (JSVal.obj []) JSVal.null
    (by decide)).1

/-- C10: the run-driver catch block stores only the thrown value's
message property; a script body that throws a value with no message
property leaves `__internalError` absent, exactly as a successful run
with the same log calls does, so the host cannot tell the two apart by
inspecting ErrorSlot. -/
theorem messageless_throw_indistinguishable_from_success
    (calls : List (Nat × List String)) (e : JSError)
    (h : e.message = none) :
    (runDriver (logsThenThrow calls e) jasmineOk
        initState).state.internalError = none ∧
    (runDriver (logsOnly calls) jasmineOk
        initState).state.internalError = none ∧
    (runDriver (logsThenThrow calls e) jasmineOk initState).state
      = (runDriver (logsOnly calls) jasmineOk initState).state := by
  refine ⟨?_, rfl, ?_⟩ <;>
    simp [runDriver, logsThenThrow, logsOnly, jasmineOk, h, initState]

/-- C10 witness: a thrown bare string (no message property) leaves
ErrorSlot empty after a run that logged one entry. -/
theorem messageless_throw_indistinguishable_from_success_witness :
    (runDriver (logsThenThrow [(5, ["a"])] ⟨none⟩) jasmineOk
        initState).state.internalError = none :=
  (messageless_throw_indistinguishable_from_success [(5, ["a"])] ⟨none⟩
    rfl).1
